import Mathlib

/-!
Shallow embedding of the authentication/authorization core of the
`blog-rest-api` repository, and proofs of its specified properties.

The embedding follows the JavaScript source:
  * `src/middleware/authMiddleware.js` — `protect`, `addToBlacklist`
  * `src/controllers/authController.js` — `signoutUser`, `resetPassword`
  * `src/controllers/commentController.js` — `deleteComment`
  * `src/routes/postRoutes.js` — `updatePost`, `deletePost`

Persistent stores (MongoDB collections) are modelled as Lean lists of
records; `findOne` / `findById` become `List.find?`. Library collaborators
(`jsonwebtoken.verify`, `mongoose.isValidObjectId`, the database driver)
are passed in as explicit function parameters, so that theorems can
quantify over their behavior.
-/

namespace BlogApi

/-! ## Data model -/

/-- A revoked-token record, as persisted by `addToBlacklist`
(`BlacklistedToken.create({ token, expiresAt })`): the literal token
string together with an expiry timestamp (milliseconds). -/
structure BlacklistEntry where
  token : String
  expiresAt : Int
  deriving Repr, DecidableEq

/-- An Identity (User) record, with the fields the in-scope flows touch:
unique id, role, password, and the optional password-reset token and its
expiry timestamp. -/
structure User where
  uid : String
  role : String
  password : String
  resetPasswordToken : Option String
  resetPasswordExpires : Option Int
  deriving Repr, DecidableEq

/-- The decoded JWT payload: `jwt.sign({ userId: user._id }, ...)` puts a
single subject identifier in the token. -/
structure JwtPayload where
  userId : String
  deriving Repr, DecidableEq

/-- A Comment record (fields used by `deleteComment`). -/
structure Comment where
  cid : String
  author : String
  deriving Repr, DecidableEq

/-- A Post record (`models/Post.js` schema, appended to the middleware
source): title, content, author, category, tags, published, createdAt. -/
structure Post where
  pid : String
  title : String
  content : String
  author : String
  category : String
  tags : List String
  published : Bool
  createdAt : Int
  deriving Repr, DecidableEq

/-! ## Character-level string primitives

The JavaScript string operations the handlers use (`startsWith`,
`split(' ')`, `trim`), implemented by recursion on the character list so
that concrete instances evaluate by `decide`. -/

/-- `cs` starts with the pattern `ps` (JS `String.prototype.startsWith`). -/
def charsStartWith : List Char → List Char → Bool
  | _, [] => true
  | [], _ :: _ => false
  | c :: cs, p :: ps => c == p && charsStartWith cs ps

/-- JS `s.startsWith(p)`. -/
def strStartsWith (s p : String) : Bool :=
  charsStartWith s.toList p.toList

/-- Accumulator recursion behind `jsSplitOnSpace`: splits at every space,
keeping empty pieces, exactly like JS `split(' ')`. -/
def splitOnSpaceAux : List Char → List Char → List String
  | [], acc => [String.mk acc.reverse]
  | c :: cs, acc =>
    if c == ' ' then String.mk acc.reverse :: splitOnSpaceAux cs []
    else splitOnSpaceAux cs (c :: acc)

/-- JS `s.split(' ')`. -/
def jsSplitOnSpace (s : String) : List String :=
  splitOnSpaceAux s.toList []

/-- JS `s.trim()`: strip whitespace from both ends. -/
def jsTrim (s : String) : String :=
  String.mk
    (((s.toList.dropWhile Char.isWhitespace).reverse.dropWhile
        Char.isWhitespace).reverse)

/-! ## Token extraction (`protect`, lines 7–14)

```js
let token;
if (req.headers.authorization && req.headers.authorization.startsWith('Bearer ')) {
  token = req.headers.authorization.split(' ')[1];
}
if (!token) { return errorHandler.handleAuthError('No token provided', res); }
```

JavaScript's `split(' ')` is `String.splitOn " "`; the `!token` check is
falsy both for `undefined` (header absent or not `Bearer `-prefixed) and
for the empty string. -/

/-- The token `protect` extracts from the `Authorization` header value:
`none` exactly when the JS `!token` guard fires. -/
def extractToken (authorization : Option String) : Option String :=
  match authorization with
  | none => none
  | some h =>
    if strStartsWith h "Bearer " then
      match (jsSplitOnSpace h).get? 1 with
      | some t => if t = "" then none else some t
      | none => none
    else none

/-! ## Token Blacklist Store -/

/-- `BlacklistedToken.findOne({ token })`: exact-string lookup on the
token field only — the query does not mention `expiresAt`. -/
def findOneByToken (store : List BlacklistEntry) (t : String) :
    Option BlacklistEntry :=
  store.find? (fun e => e.token == t)

/-- Modelled from the spec: the persistence of Revoked Token Entries
(`models/BlacklistedToken.js` is not among the provided sources; only its
callers are). Spec §4.3 specifies `revoke` as keyed persistence of
`(token, expiresAt)` where duplicate revocation of the same token is an
overwrite or no-op: inserting an entry replaces any entry with the same
token string. -/
def blacklistCreate (store : List BlacklistEntry) (e : BlacklistEntry) :
    List BlacklistEntry :=
  store.filter (fun x => x.token != e.token) ++ [e]

/-- `addToBlacklist(token)` (authMiddleware.js lines 33–42): computes
`expiresAt = now + 30 days` (in milliseconds) and persists the pair. -/
def addToBlacklist (token : String) (now : Int)
    (store : List BlacklistEntry) : List BlacklistEntry :=
  blacklistCreate store ⟨token, now + 30 * 24 * 60 * 60 * 1000⟩

/-! ## Authenticator (`protect`) -/

/-- The distinct 401 denials `protect` can produce, by source message:
`missingCredential` is `'No token provided'` (spec `MissingCredential`),
`revokedCredential` is `'Token is invalid'` on a blacklist hit (spec
`RevokedCredential`), `verificationFailed` is the catch-all
`'Token verification failed'` for a thrown store error or a failed
`jwt.verify` (spec `InvalidCredential` / fail-closed `PersistenceFailure`). -/
inductive AuthError where
  | missingCredential
  | revokedCredential
  | verificationFailed
  deriving Repr, DecidableEq

/-- `protect(req, res, next)` (authMiddleware.js lines 6–30), as a function
of the `Authorization` header value. `lookup` is the database call
`BlacklistedToken.findOne({ token })` — it may throw (`Except.error`),
which the `try/catch` turns into the 401 catch-all. `verify` is
`jwt.verify(token, secret)`, which throws on a bad signature or expiry.
`Except.ok` is `next()` with `req.user = decoded`. -/
def protect (lookup : String → Except String (Option BlacklistEntry))
    (verify : String → Except String JwtPayload)
    (authorization : Option String) : Except AuthError JwtPayload :=
  match extractToken authorization with
  | none => .error .missingCredential
  | some token =>
    match lookup token with
    | .error _ => .error .verificationFailed
    | .ok (some _) => .error .revokedCredential
    | .ok none =>
      match verify token with
      | .error _ => .error .verificationFailed
      | .ok decoded => .ok decoded

/-- The lookup function of a live (non-erroring) blacklist store. -/
def storeLookup (store : List BlacklistEntry) :
    String → Except String (Option BlacklistEntry) :=
  fun t => .ok (findOneByToken store t)

/-! ## Request handlers

Handlers terminate in exactly one of the error-handler responses
(`handleValidationError` 400, `handleNotFoundError` 404, `handleAuthError`
401, `handleDatabaseError` 500) or a success JSON; each carries its
user-facing message string from the source. -/

/-- The terminal response of a request handler. -/
inductive HandlerResult where
  | validationError (msg : String)
  | notFound (msg : String)
  | authError (msg : String)
  | ok (msg : String)
  deriving Repr, DecidableEq

/-! ### `deleteComment` (commentController.js lines 279–312) -/

/-- `deleteComment`, as a function of the comment store, the user store,
the path parameter `commentId` and the authenticated `req.user.userId`.
`isValidId` is the library collaborator `mongoose.isValidObjectId`.
Returns the terminal response and the comment store after the request. -/
def deleteComment (isValidId : String → Bool)
    (comments : List Comment) (users : List User)
    (commentId userId : String) : HandlerResult × List Comment :=
  if commentId = "" ∨ ¬ isValidId commentId then
    (.validationError "Invalid comment ID", comments)
  else
    match comments.find? (fun c => c.cid == commentId) with
    | none => (.notFound "Comment not found", comments)
    | some comment =>
      match users.find? (fun u => u.uid == userId) with
      | none => (.notFound "User not found", comments)
      | some user =>
        if comment.author ≠ userId ∧ user.role ≠ "admin" then
          (.authError "Not authorized to delete this comment", comments)
        else
          (.ok "Comment deleted successfully",
           comments.filter (fun c => c.cid != commentId))

/-! ### `updatePost` (postRoutes.js lines 371–432)

Request-body fields are `Option`s (`none` = absent from the body); the JS
truthiness guards (`title ? ... : ...`, `category || post.category`) treat
`some ""` like `none` for the string fields. `tags` is an optional array;
an empty array is truthy in JS and so does overwrite. -/

/-- JS falsiness of an optional string body field: absent or empty. -/
def falsyStr (o : Option String) : Bool :=
  match o with
  | none => true
  | some s => s = ""

/-- The validation guard
`title && (typeof title !== 'string' || title.trim().length === 0)`
(and the identical one for `content`): a present, non-empty string that is
all whitespace. -/
def badTrimField (o : Option String) : Bool :=
  match o with
  | some t => t != "" && jsTrim t == ""
  | none => false

/-- The validation guard `category && !mongoose.isValidObjectId(category)`. -/
def badCategoryField (isValidId : String → Bool) (o : Option String) : Bool :=
  match o with
  | some c => c != "" && ! isValidId c
  | none => false

/-- The four field assignments of `updatePost` (lines 412–415):
`post.title = title ? title.trim() : post.title;` and so on. All other
fields of the post are left as they are. -/
def applyUpdate (p : Post) (title content category : Option String)
    (tags : Option (List String)) : Post :=
  { p with
    title := match title with
      | some t => if t = "" then p.title else jsTrim t
      | none => p.title
    content := match content with
      | some c => if c = "" then p.content else jsTrim c
      | none => p.content
    category := match category with
      | some c => if c = "" then p.category else c
      | none => p.category
    tags := match tags with
      | some ts => ts
      | none => p.tags }

/-- `updatePost`, as a function of the post store, the user store, the
path parameter `postId`, the request-body fields, and `req.user.userId`.
Returns the terminal response and the post store after the request
(`post.save()` replaces the fetched document). -/
def updatePost (isValidId : String → Bool)
    (posts : List Post) (users : List User) (postId : String)
    (title content category : Option String) (tags : Option (List String))
    (userId : String) : HandlerResult × List Post :=
  if postId = "" ∨ ¬ isValidId postId then
    (.validationError "Invalid post ID", posts)
  else if badTrimField title then
    (.validationError "Title must be a non-empty string", posts)
  else if badTrimField content then
    (.validationError "Content must be a non-empty string", posts)
  else if badCategoryField isValidId category then
    (.validationError "Invalid category ID", posts)
  else
    match posts.find? (fun p => p.pid == postId) with
    | none => (.notFound "Post not found", posts)
    | some post =>
      match users.find? (fun u => u.uid == userId) with
      | none => (.notFound "User not found", posts)
      | some user =>
        if post.author ≠ userId ∧ user.role ≠ "admin" then
          (.authError "Not authorized to update this post", posts)
        else
          (.ok "Post updated successfully",
           posts.map (fun q =>
             if q.pid == postId then applyUpdate post title content category tags
             else q))

/-! ### `deletePost` (postRoutes.js lines 466–499) -/

/-- `deletePost`, as a function of the post store, the user store, the
path parameter `postId` and `req.user.userId`. -/
def deletePost (isValidId : String → Bool)
    (posts : List Post) (users : List User)
    (postId userId : String) : HandlerResult × List Post :=
  if postId = "" ∨ ¬ isValidId postId then
    (.validationError "Invalid post ID", posts)
  else
    match posts.find? (fun p => p.pid == postId) with
    | none => (.notFound "Post not found", posts)
    | some post =>
      match users.find? (fun u => u.uid == userId) with
      | none => (.notFound "User not found", posts)
      | some user =>
        if post.author ≠ userId ∧ user.role ≠ "admin" then
          (.authError "Not authorized to delete this post", posts)
        else
          (.ok "Post deleted successfully",
           posts.filter (fun p => p.pid != postId))

/-! ### `resetPassword` (authController.js lines 309–338)

```js
const decoded = jwt.verify(token, process.env.JWT_SECRET);
const user = await User.findOne({
  _id: decoded.userId,
  resetPasswordToken: token,
  resetPasswordExpires: { $gt: Date.now() },
});
```
On success the handler sets the new password and clears the stored reset
token and expiry. -/

/-- The `User.findOne` query predicate of `resetPassword`: id matches the
decoded subject, the stored reset token is exactly this token, and the
stored expiry is strictly later than now. -/
def matchesResetQuery (userId token : String) (now : Int) (u : User) : Bool :=
  u.uid == userId && u.resetPasswordToken == some token &&
    (match u.resetPasswordExpires with
     | some e => now < e
     | none => false)

/-- The mutation `resetPassword` performs on the matched user record:
`user.password = newPassword; user.resetPasswordToken = undefined;
user.resetPasswordExpires = undefined;`. -/
def consumeReset (u : User) (newPassword : String) : User :=
  { u with
    password := newPassword
    resetPasswordToken := none
    resetPasswordExpires := none }

/-- `resetPassword`, as a function of `jwt.verify` (a throwing library
collaborator), the user store, the request body (`token`, `newPassword`)
and the current time. Returns the terminal response and the user store
after the request (`user.save()` replaces the matched document). -/
def resetPassword (verify : String → Except String JwtPayload)
    (users : List User) (token newPassword : String) (now : Int) :
    HandlerResult × List User :=
  if token = "" ∨ newPassword = "" then
    (.validationError "Token and new password are required", users)
  else
    match verify token with
    | .error _ => (.validationError "Invalid token", users)
    | .ok decoded =>
      match users.find? (matchesResetQuery decoded.userId token now) with
      | none => (.notFound "Invalid or expired token", users)
      | some user =>
        (.ok "Password reset successful",
         users.map (fun v =>
           if v.uid == user.uid then consumeReset user newPassword else v))

/-! ## Helper lemmas -/

/-- If the blacklist lookup finds an entry, `protect` answers the 401
`'Token is invalid'` denial, whatever `verify` does. -/
theorem protect_of_found {store : List BlacklistEntry}
    {authorization : Option String} {t : String} {e : BlacklistEntry}
    (ht : extractToken authorization = some t)
    (he : findOneByToken store t = some e)
    (verify : String → Except String JwtPayload) :
    protect (storeLookup store) verify authorization =
      .error .revokedCredential := by
  simp [protect, ht, storeLookup, he]

/-- `blacklistCreate` makes its entry the one `findOneByToken` returns for
that token string. -/
theorem findOneByToken_blacklistCreate_self (store : List BlacklistEntry)
    (e : BlacklistEntry) :
    findOneByToken (blacklistCreate store e) e.token = some e := by
  unfold findOneByToken blacklistCreate
  rw [List.find?_append]
  have h₁ : (store.filter (fun x => x.token != e.token)).find?
      (fun x => x.token == e.token) = none := by
    rw [List.find?_eq_none]
    intro x hx
    have := (List.mem_filter.mp hx).2
    simpa using this
  simp [h₁]

/-- A member of the blacklist with the looked-up token string makes the
lookup succeed. -/
theorem findOneByToken_isSome_of_mem {store : List BlacklistEntry}
    {entry : BlacklistEntry} {t : String}
    (hmem : entry ∈ store) (htok : entry.token = t) :
    (findOneByToken store t).isSome := by
  rw [findOneByToken, List.find?_isSome]
  exact ⟨entry, hmem, by simp [htok]⟩

/-! ## Theorems for the claims -/

/-- C1: every token passed to `signOut` (`signoutUser` delegating to
`addToBlacklist`) makes a subsequent `authenticate` (`protect`) carrying
the same token string fail with `RevokedCredential`
(`'Token is invalid'`), regardless of the token's remaining cryptographic
validity window — `verify` is arbitrary, so the result holds even for a
token `jwt.verify` would still accept. -/
theorem signOut_then_authenticate_revoked
    (t : String) (now : Int) (store : List BlacklistEntry)
    (authorization : Option String)
    (ht : extractToken authorization = some t) :
    ∀ verify, protect (storeLookup (addToBlacklist t now store)) verify
      authorization = .error .revokedCredential := by
  intro verify
  exact protect_of_found ht
    (findOneByToken_blacklistCreate_self store ⟨t, now + 30 * 24 * 60 * 60 * 1000⟩)
    verify

/-- Witness for C1: after revoking `"tok1"`, `protect` denies a request
bearing `"tok1"` with the revoked-credential error, even though `verify`
here accepts every token. -/
theorem signOut_then_authenticate_revoked_witness :
    extractToken (some "Bearer tok1") = some "tok1" ∧
    protect (storeLookup (addToBlacklist "tok1" 0 []))
      (fun _ => .ok ⟨"u1"⟩) (some "Bearer tok1") =
      .error .revokedCredential :=
  ⟨by decide,
   signOut_then_authenticate_revoked "tok1" 0 [] (some "Bearer tok1")
     (by decide) (fun _ => .ok ⟨"u1"⟩)⟩

/-- C2: the exact-match blacklist lookup comes before signature/expiry
verification: any token present in the Token Blacklist Store is denied
with `RevokedCredential` whatever `verify` would say, and the outcome of
`protect` does not depend on `verify` at all for such a token (signature
verification is never reached). -/
theorem blacklist_check_precedes_verification
    (store : List BlacklistEntry) (authorization : Option String)
    (t : String)
    (ht : extractToken authorization = some t)
    (hb : (findOneByToken store t).isSome) :
    (∀ verify, protect (storeLookup store) verify authorization =
      .error .revokedCredential) ∧
    (∀ verify₁ verify₂, protect (storeLookup store) verify₁ authorization =
      protect (storeLookup store) verify₂ authorization) := by
  obtain ⟨e, he⟩ := Option.isSome_iff_exists.mp hb
  refine ⟨fun verify => protect_of_found ht he verify, fun v₁ v₂ => ?_⟩
  rw [protect_of_found ht he v₁, protect_of_found ht he v₂]

/-- Witness for C2: a blacklisted token is denied as revoked even though
`verify` here rejects every token (invalid signature). -/
theorem blacklist_check_precedes_verification_witness :
    extractToken (some "Bearer tok1") = some "tok1" ∧
    (findOneByToken [⟨"tok1", 99⟩] "tok1").isSome ∧
    protect (storeLookup [⟨"tok1", 99⟩])
      (fun _ => .error "invalid signature") (some "Bearer tok1") =
      .error .revokedCredential :=
  ⟨by decide, by decide,
   (blacklist_check_precedes_verification [⟨"tok1", 99⟩]
     (some "Bearer tok1") "tok1" (by decide) (by decide)).1
     (fun _ => .error "invalid signature")⟩

/-- C5: if the blacklist lookup throws (store unavailable or erroring),
`protect` fails closed: the `try/catch` turns the thrown error into the
401 `'Token verification failed'` denial, never admits the caller, and
never reaches `verify`. -/
theorem protect_fails_closed_on_store_error
    (lookup : String → Except String (Option BlacklistEntry))
    (authorization : Option String) (t msg : String)
    (ht : extractToken authorization = some t)
    (hl : lookup t = .error msg) :
    (∀ verify, protect lookup verify authorization =
      .error .verificationFailed) ∧
    (∀ verify payload, protect lookup verify authorization ≠ .ok payload) := by
  have h : ∀ verify, protect lookup verify authorization =
      .error .verificationFailed := by
    intro verify
    simp [protect, ht, hl]
  exact ⟨h, fun verify payload => by simp [h verify]⟩

/-- Witness for C5: an erroring store denies the request even though
`verify` here accepts every token. -/
theorem protect_fails_closed_on_store_error_witness :
    extractToken (some "Bearer tok1") = some "tok1" ∧
    ((fun _ => .error "store unavailable" :
        String → Except String (Option BlacklistEntry)) "tok1" =
      .error "store unavailable") ∧
    protect (fun _ => .error "store unavailable")
      (fun _ => .ok ⟨"u1"⟩) (some "Bearer tok1") =
      .error .verificationFailed :=
  ⟨by decide, rfl,
   (protect_fails_closed_on_store_error
     (fun _ => .error "store unavailable") (some "Bearer tok1")
     "tok1" "store unavailable" (by decide) rfl).1 (fun _ => .ok ⟨"u1"⟩)⟩

/-- C6: the blacklist lookup (`findOne({ token })`) does not filter by the
entry's `expiresAt` field: an entry whose own expiry timestamp is already
in the past (`entry.expiresAt < now`) still causes the
`RevokedCredential` denial — such records remain blacklisted until
removed. -/
theorem blacklist_ignores_entry_expiry
    (store : List BlacklistEntry) (entry : BlacklistEntry) (now : Int)
    (authorization : Option String)
    (hmem : entry ∈ store)
    (htok : extractToken authorization = some entry.token)
    (hexp : entry.expiresAt < now) :
    ∀ verify, protect (storeLookup store) verify authorization =
      .error .revokedCredential := by
  intro verify
  obtain ⟨e, he⟩ := Option.isSome_iff_exists.mp
    (findOneByToken_isSome_of_mem hmem rfl)
  exact protect_of_found htok he verify

/-- Witness for C6: the entry for `"tok1"` expired at time 5, the current
time is 99, and the token is still denied as revoked. -/
theorem blacklist_ignores_entry_expiry_witness :
    (⟨"tok1", 5⟩ : BlacklistEntry) ∈ [(⟨"tok1", 5⟩ : BlacklistEntry)] ∧
    extractToken (some "Bearer tok1") = some "tok1" ∧
    (5 : Int) < 99 ∧
    protect (storeLookup [⟨"tok1", 5⟩]) (fun _ => .ok ⟨"u1"⟩)
      (some "Bearer tok1") = .error .revokedCredential :=
  ⟨by decide, by decide, by decide,
   blacklist_ignores_entry_expiry [⟨"tok1", 5⟩] ⟨"tok1", 5⟩ 99
     (some "Bearer tok1") (by decide) (by decide) (by decide)
     (fun _ => .ok ⟨"u1"⟩)⟩

/-- C7: revocation is idempotent — revoking the same token twice leaves
the blacklist in the same state as revoking it once (the second call at
time `n₂` overwrites the first; taking `n₁ = n₂` gives literal
idempotence of a single revoke call). -/
theorem revoke_idempotent (t : String) (n₁ n₂ : Int)
    (store : List BlacklistEntry) :
    addToBlacklist t n₂ (addToBlacklist t n₁ store) =
      addToBlacklist t n₂ store := by
  unfold addToBlacklist blacklistCreate
  congr 1
  rw [List.filter_append]
  have h₂ : List.filter (fun x => x.token != t)
      [(⟨t, n₁ + 30 * 24 * 60 * 60 * 1000⟩ : BlacklistEntry)] = [] := by
    simp
  rw [h₂, List.append_nil, List.filter_filter]
  apply List.filter_congr
  intro x _
  simp

/-- C9: a missing `Authorization` header, a header not starting with
`'Bearer '`, and a header whose token part (`split(' ')[1]`) is empty all
fail with `MissingCredential` (`'No token provided'`); the conclusion
holds for every `lookup` and `verify`, so no blacklist lookup and no
signature verification takes place. -/
theorem protect_missing_credential :
    (∀ lookup verify, protect lookup verify none =
      .error .missingCredential) ∧
    (∀ lookup verify s, ¬ strStartsWith s "Bearer " →
      protect lookup verify (some s) = .error .missingCredential) ∧
    (∀ lookup verify s, (jsSplitOnSpace s).get? 1 = some "" →
      protect lookup verify (some s) = .error .missingCredential) := by
  refine ⟨fun lookup verify => rfl, fun lookup verify s hs => ?_,
    fun lookup verify s hs => ?_⟩
  · simp [protect, extractToken, hs]
  · have h : extractToken (some s) = none := by
      unfold extractToken
      split
      · rename_i heq; cases heq
      · rename_i h' heq
        cases heq
        split
        · rw [hs]; rfl
        · rfl
    simp [protect, h]

/-- Witness for C9: a header with the wrong scheme and a header with an
empty token part are both denied with the missing-credential error (with
a blacklist and a verifier that would accept anything). -/
theorem protect_missing_credential_witness :
    (¬ strStartsWith "Token abc" "Bearer ") ∧
    protect (storeLookup []) (fun _ => .ok ⟨"u1"⟩) (some "Token abc") =
      .error .missingCredential ∧
    (jsSplitOnSpace "Bearer ").get? 1 = some "" ∧
    protect (storeLookup []) (fun _ => .ok ⟨"u1"⟩) (some "Bearer ") =
      .error .missingCredential :=
  ⟨by decide,
   protect_missing_credential.2.1 (storeLookup []) (fun _ => .ok ⟨"u1"⟩)
     "Token abc" (by decide),
   by decide,
   protect_missing_credential.2.2 (storeLookup []) (fun _ => .ok ⟨"u1"⟩)
     "Bearer " (by decide)⟩

/-- C3: in `deleteComment`, `updatePost` and `deletePost`, once the
resource is fetched and the caller's Identity record loads, the
owner-or-admin authorization succeeds (the mutation happens) if and only
if the claim's subject (`req.user.userId`, the only thing the token
carries) equals the resource owner id or the identity's current role —
read from the user store at request time, not from the token — is
`admin`; otherwise the request fails with the 401 `'Not authorized ...'`
denial. Each conjunct characterizes one handler as the exact conditional
on `owner ∨ admin`. -/
theorem ownerOrAdmin_authorization
    (isValidId : String → Bool) (users : List User) (userId : String)
    (u : User)
    (hu : users.find? (fun v => v.uid == userId) = some u) :
    (∀ comments (c : Comment) commentId, commentId ≠ "" →
      isValidId commentId = true →
      comments.find? (fun x => x.cid == commentId) = some c →
      deleteComment isValidId comments users commentId userId =
        (if c.author = userId ∨ u.role = "admin" then
          (.ok "Comment deleted successfully",
           comments.filter (fun x => x.cid != commentId))
        else
          (.authError "Not authorized to delete this comment", comments))) ∧
    (∀ posts (p : Post) postId title content category tags, postId ≠ "" →
      isValidId postId = true →
      badTrimField title = false → badTrimField content = false →
      badCategoryField isValidId category = false →
      posts.find? (fun x => x.pid == postId) = some p →
      updatePost isValidId posts users postId title content category tags
          userId =
        (if p.author = userId ∨ u.role = "admin" then
          (.ok "Post updated successfully",
           posts.map (fun q =>
             if q.pid == postId then
               applyUpdate p title content category tags
             else q))
        else
          (.authError "Not authorized to update this post", posts))) ∧
    (∀ posts (p : Post) postId, postId ≠ "" → isValidId postId = true →
      posts.find? (fun x => x.pid == postId) = some p →
      deletePost isValidId posts users postId userId =
        (if p.author = userId ∨ u.role = "admin" then
          (.ok "Post deleted successfully",
           posts.filter (fun x => x.pid != postId))
        else
          (.authError "Not authorized to delete this post", posts))) := by
  refine ⟨fun comments c commentId hid hvalid hc => ?_,
    fun posts p postId title content category tags hid hvalid ht hc hcat hp => ?_,
    fun posts p postId hid hvalid hp => ?_⟩
  · by_cases hok : c.author = userId ∨ u.role = "admin"
    · have hneg : ¬ (c.author ≠ userId ∧ u.role ≠ "admin") := by tauto
      simp [deleteComment, hid, hvalid, hc, hu, hneg, hok]
    · have hneg : c.author ≠ userId ∧ u.role ≠ "admin" := by tauto
      simp [deleteComment, hid, hvalid, hc, hu, hneg, hok]
  · by_cases hok : p.author = userId ∨ u.role = "admin"
    · have hneg : ¬ (p.author ≠ userId ∧ u.role ≠ "admin") := by tauto
      simp [updatePost, hid, hvalid, ht, hc, hcat, hp, hu, hneg, hok]
    · have hneg : p.author ≠ userId ∧ u.role ≠ "admin" := by tauto
      simp [updatePost, hid, hvalid, ht, hc, hcat, hp, hu, hneg, hok]
  · by_cases hok : p.author = userId ∨ u.role = "admin"
    · have hneg : ¬ (p.author ≠ userId ∧ u.role ≠ "admin") := by tauto
      simp [deletePost, hid, hvalid, hp, hu, hneg, hok]
    · have hneg : p.author ≠ userId ∧ u.role ≠ "admin" := by tauto
      simp [deletePost, hid, hvalid, hp, hu, hneg, hok]

/-- Witness for C3: a non-owner, non-admin caller (`"u1"`, role
`standard`) is denied deletion of a comment owned by `"u2"`, and the
theorem's conditional evaluates accordingly. -/
theorem ownerOrAdmin_authorization_witness :
    ([⟨"u1", "standard", "pw", none, none⟩] : List User).find?
        (fun v => v.uid == "u1") =
      some ⟨"u1", "standard", "pw", none, none⟩ ∧
    deleteComment (fun _ => true) [⟨"c1", "u2"⟩]
      [⟨"u1", "standard", "pw", none, none⟩] "c1" "u1" =
      (.authError "Not authorized to delete this comment", [⟨"c1", "u2"⟩]) :=
  ⟨by decide, by
    have h := (ownerOrAdmin_authorization (fun _ => true)
      [⟨"u1", "standard", "pw", none, none⟩] "u1"
      ⟨"u1", "standard", "pw", none, none⟩ (by decide)).1
      [⟨"c1", "u2"⟩] ⟨"c1", "u2"⟩ "c1" (by decide) rfl (by decide)
    simpa using h⟩

/-- C4 counterexample: the owner match does not short-circuit the
Credential Store lookup. The sole comment is owned by `"u1"`, the caller
is its owner `"u1"`, but the user store is empty, and `deleteComment`
answers 404 `'User not found'` instead of succeeding — the owner is not
authorized when their Identity record cannot be loaded. -/
theorem owner_shortCircuit_counterexample :
    deleteComment (fun _ => true) [⟨"c1", "u1"⟩] [] "c1" "u1" =
      (.notFound "User not found", [⟨"c1", "u1"⟩]) ∧
    (deleteComment (fun _ => true) [⟨"c1", "u1"⟩] [] "c1" "u1").1 ≠
      .ok "Comment deleted successfully" := by
  decide

/-- C4 amended: in the owner-or-admin authorization of `deleteComment`
and `deletePost`, the Credential Store lookup is performed before the
owner comparison in every case: if the caller's Identity record cannot be
loaded the request fails with 404 `'User not found'` even when the
claim's subject equals the resource owner id, and when the record loads,
an owner is authorized regardless of their role. -/
theorem ownerOrAdmin_lookup_precedes_owner_check
    (isValidId : String → Bool) (users : List User) (userId : String) :
    (∀ comments (c : Comment) commentId, commentId ≠ "" →
      isValidId commentId = true →
      comments.find? (fun x => x.cid == commentId) = some c →
      users.find? (fun v => v.uid == userId) = none →
      deleteComment isValidId comments users commentId userId =
        (.notFound "User not found", comments)) ∧
    (∀ comments (c : Comment) commentId (u : User), commentId ≠ "" →
      isValidId commentId = true →
      comments.find? (fun x => x.cid == commentId) = some c →
      users.find? (fun v => v.uid == userId) = some u →
      c.author = userId →
      deleteComment isValidId comments users commentId userId =
        (.ok "Comment deleted successfully",
         comments.filter (fun x => x.cid != commentId))) ∧
    (∀ posts (p : Post) postId, postId ≠ "" → isValidId postId = true →
      posts.find? (fun x => x.pid == postId) = some p →
      users.find? (fun v => v.uid == userId) = none →
      deletePost isValidId posts users postId userId =
        (.notFound "User not found", posts)) ∧
    (∀ posts (p : Post) postId (u : User), postId ≠ "" →
      isValidId postId = true →
      posts.find? (fun x => x.pid == postId) = some p →
      users.find? (fun v => v.uid == userId) = some u →
      p.author = userId →
      deletePost isValidId posts users postId userId =
        (.ok "Post deleted successfully",
         posts.filter (fun x => x.pid != postId))) := by
  refine ⟨fun comments c commentId hid hvalid hc hnone => ?_,
    fun comments c commentId u hid hvalid hc hu hown => ?_,
    fun posts p postId hid hvalid hp hnone => ?_,
    fun posts p postId u hid hvalid hp hu hown => ?_⟩
  · simp [deleteComment, hid, hvalid, hc, hnone]
  · simp [deleteComment, hid, hvalid, hc, hu, hown]
  · simp [deletePost, hid, hvalid, hp, hnone]
  · simp [deletePost, hid, hvalid, hp, hu, hown]

/-- Witness for the amended C4: with an empty user store the owner's
delete fails 404; with the owner's record present (role `standard`), the
same delete succeeds. -/
theorem ownerOrAdmin_lookup_precedes_owner_check_witness :
    deleteComment (fun _ => true) [⟨"c1", "u1"⟩] [] "c1" "u1" =
      (.notFound "User not found", [⟨"c1", "u1"⟩]) ∧
    deleteComment (fun _ => true) [⟨"c1", "u1"⟩]
      [⟨"u1", "standard", "pw", none, none⟩] "c1" "u1" =
      (.ok "Comment deleted successfully", []) :=
  ⟨(ownerOrAdmin_lookup_precedes_owner_check (fun _ => true) [] "u1").1
     [⟨"c1", "u1"⟩] ⟨"c1", "u1"⟩ "c1" (by decide) rfl (by decide) rfl,
   by
    have h := (ownerOrAdmin_lookup_precedes_owner_check (fun _ => true)
      [⟨"u1", "standard", "pw", none, none⟩] "u1").2.1
      [⟨"c1", "u1"⟩] ⟨"c1", "u1"⟩ "c1" ⟨"u1", "standard", "pw", none, none⟩
      (by decide) rfl (by decide) (by decide) rfl
    simpa using h⟩

/-- C10: for an authorized `updatePost` on an existing post, the stored
post is the fetched one with exactly the four assignment lines applied:
`author` and `createdAt` (and `_id`, `published`) are never modified,
body fields that are absent or falsy (the empty string; for `tags`,
absent) keep their previous values, and every other post in the store is
untouched (the store equation shows the update replaces only the
document with the requested id). -/
theorem updatePost_frame
    (isValidId : String → Bool) (posts : List Post) (users : List User)
    (postId : String) (title content category : Option String)
    (tags : Option (List String)) (userId : String) (p : Post) (u : User)
    (hid : postId ≠ "") (hvalid : isValidId postId = true)
    (ht : badTrimField title = false) (hc : badTrimField content = false)
    (hcat : badCategoryField isValidId category = false)
    (hp : posts.find? (fun x => x.pid == postId) = some p)
    (hu : users.find? (fun v => v.uid == userId) = some u)
    (hauth : p.author = userId ∨ u.role = "admin") :
    updatePost isValidId posts users postId title content category tags
        userId =
      (.ok "Post updated successfully",
       posts.map (fun q =>
         if q.pid == postId then applyUpdate p title content category tags
         else q)) ∧
    (applyUpdate p title content category tags).author = p.author ∧
    (applyUpdate p title content category tags).createdAt = p.createdAt ∧
    (applyUpdate p title content category tags).pid = p.pid ∧
    (applyUpdate p title content category tags).published = p.published ∧
    (falsyStr title = true →
      (applyUpdate p title content category tags).title = p.title) ∧
    (falsyStr content = true →
      (applyUpdate p title content category tags).content = p.content) ∧
    (falsyStr category = true →
      (applyUpdate p title content category tags).category = p.category) ∧
    (tags = none →
      (applyUpdate p title content category tags).tags = p.tags) := by
  have hneg : ¬ (p.author ≠ userId ∧ u.role ≠ "admin") := by tauto
  refine ⟨by simp [updatePost, hid, hvalid, ht, hc, hcat, hp, hu, hneg],
    by simp [applyUpdate], by simp [applyUpdate], by simp [applyUpdate],
    by simp [applyUpdate], ?_, ?_, ?_, ?_⟩
  · intro hf
    cases title with
    | none => simp [applyUpdate]
    | some t =>
      have : t = "" := by simpa [falsyStr] using hf
      simp [applyUpdate, this]
  · intro hf
    cases content with
    | none => simp [applyUpdate]
    | some c =>
      have : c = "" := by simpa [falsyStr] using hf
      simp [applyUpdate, this]
  · intro hf
    cases category with
    | none => simp [applyUpdate]
    | some c =>
      have : c = "" := by simpa [falsyStr] using hf
      simp [applyUpdate, this]
  · intro hf
    simp [applyUpdate, hf]

/-- Witness for C10: the owner updates post `"p1"` with an empty-string
title, an absent content, an empty-string category and absent tags — the
stored post keeps every field, and `author`/`createdAt` are untouched. -/
theorem updatePost_frame_witness :
    updatePost (fun _ => true)
      [⟨"p1", "T", "C", "u1", "cat", ["x"], false, 5⟩]
      [⟨"u1", "standard", "pw", none, none⟩]
      "p1" (some "") none (some "") none "u1" =
      (.ok "Post updated successfully",
       [⟨"p1", "T", "C", "u1", "cat", ["x"], false, 5⟩]) ∧
    (applyUpdate ⟨"p1", "T", "C", "u1", "cat", ["x"], false, 5⟩
      (some "") none (some "") none).author = "u1" := by
  have h := updatePost_frame (fun _ => true)
    [⟨"p1", "T", "C", "u1", "cat", ["x"], false, 5⟩]
    [⟨"u1", "standard", "pw", none, none⟩]
    "p1" (some "") none (some "") none "u1"
    ⟨"p1", "T", "C", "u1", "cat", ["x"], false, 5⟩
    ⟨"u1", "standard", "pw", none, none⟩
    (by decide) rfl (by decide) (by decide) (by decide)
    (by decide) (by decide) (Or.inl rfl)
  refine ⟨?_, by simpa using h.2.1⟩
  rw [h.1]
  decide

/-- C8: reset-token consumption is single-use. With the store holding a
matching Identity record (right id, the stored reset token equal to this
token, stored expiry later than now), the first `resetPassword` succeeds
and saves the record with the reset token and expiry cleared
(`consumeReset`); a second call with the same token — even under a
verifier that still accepts the token's signature — fails with 404
`'Invalid or expired token'` and leaves the store unchanged. -/
theorem resetToken_single_use
    (verify verify₂ : String → Except String JwtPayload)
    (users : List User) (token newPassword newPassword₂ : String)
    (now now₂ : Int) (payload : JwtPayload) (u : User)
    (htok : token ≠ "") (hnp : newPassword ≠ "") (hnp₂ : newPassword₂ ≠ "")
    (hv : verify token = .ok payload) (hv₂ : verify₂ token = .ok payload)
    (hfind : users.find? (matchesResetQuery payload.userId token now) =
      some u) :
    resetPassword verify users token newPassword now =
      (.ok "Password reset successful",
       users.map (fun v =>
         if v.uid == u.uid then consumeReset u newPassword else v)) ∧
    (consumeReset u newPassword).resetPasswordToken = none ∧
    (consumeReset u newPassword).resetPasswordExpires = none ∧
    resetPassword verify₂
      (users.map (fun v =>
        if v.uid == u.uid then consumeReset u newPassword else v))
      token newPassword₂ now₂ =
      (.notFound "Invalid or expired token",
       users.map (fun v =>
         if v.uid == u.uid then consumeReset u newPassword else v)) := by
  have huid : u.uid = payload.userId := by
    have h := List.find?_some hfind
    simp [matchesResetQuery] at h
    exact h.1.1
  have key : ∀ us : List User,
      us.find? (matchesResetQuery payload.userId token now₂) = none →
      resetPassword verify₂ us token newPassword₂ now₂ =
        (.notFound "Invalid or expired token", us) := by
    intro us hn
    simp [resetPassword, htok, hnp₂, hv₂, hn]
  have hnone : (users.map (fun v =>
      if v.uid == u.uid then consumeReset u newPassword else v)).find?
        (matchesResetQuery payload.userId token now₂) = none := by
    rw [List.find?_eq_none]
    intro v' hv'
    rcases List.mem_map.mp hv' with ⟨v, _, rfl⟩
    by_cases hvu : (v.uid == u.uid) = true
    · simp [hvu, matchesResetQuery, consumeReset]
    · rw [if_neg hvu]
      have hvne : v.uid ≠ payload.userId := by
        intro habs
        exact (by simpa using hvu : v.uid ≠ u.uid) (by rw [habs, huid])
      simp [matchesResetQuery, hvne]
  exact ⟨by simp [resetPassword, htok, hnp, hv, hfind], rfl, rfl,
    key _ hnone⟩

/-- Witness for C8: user `"u1"` holds reset token `"rt"` expiring at 100;
at time 50 the reset succeeds and clears the token, and the replay of
`"rt"` (with the same accepting verifier) fails as invalid-or-expired. -/
theorem resetToken_single_use_witness :
    resetPassword (fun _ => .ok ⟨"u1"⟩)
      [⟨"u1", "standard", "old", some "rt", some 100⟩] "rt" "new" 50 =
      (.ok "Password reset successful",
       [⟨"u1", "standard", "new", none, none⟩]) ∧
    resetPassword (fun _ => .ok ⟨"u1"⟩)
      [⟨"u1", "standard", "new", none, none⟩] "rt" "new2" 60 =
      (.notFound "Invalid or expired token",
       [⟨"u1", "standard", "new", none, none⟩]) := by
  have h := resetToken_single_use (fun _ => .ok ⟨"u1"⟩) (fun _ => .ok ⟨"u1"⟩)
    [⟨"u1", "standard", "old", some "rt", some 100⟩] "rt" "new" "new2" 50 60
    ⟨"u1"⟩ ⟨"u1", "standard", "old", some "rt", some 100⟩
    (by decide) (by decide) (by decide) rfl rfl (by decide)
  constructor
  · rw [h.1]; decide
  · have h4 := h.2.2.2
    simp only [List.map] at h4
    simpa using h4

end BlogApi
